import Mathlib

/-!
Shallow embedding of the tally-converter repository (e-commerce marketplace
reports → Tally voucher rows).  Sources embedded: `converters/base.py`
(`parse_date`, `safe_float`, `apply_gst_split`, `make_row`, `generic_convert`),
`converters/amazon.py`, `converters/flipkart.py`, `converters/tcs.py`, and the
dispatcher logic of `app.py` (`inline_generic_convert`, the POST handler's
seller-state check, parser selection and concatenation).

Modelling conventions:
* Spreadsheet cell values are `Cell`: a string, a rational number, or missing
  (Python `None`).  Monetary and numeric values are exact rationals; Python's
  binary floating point is idealized as `ℚ` (`0.18` is `9/50`).
* Python truthiness of a cell (`x or y` chains, `if gst_number`) is `truthy`.
* Python `round(x, 2)` (banker's rounding, half to even) is `round2`.
* A pandas row is an association list `Row`; `row.get(k)` is `getCell`,
  returning `Cell.none` when the key is absent.
-/

/-- Python whitespace as stripped by `str.strip()` (ASCII subset). -/
def isSpaceChar (c : Char) : Bool :=
  c = ' ' ∨ c = '\t' ∨ c = '\n' ∨ c = '\r' ∨
    c = Char.ofNat 11 ∨ c = Char.ofNat 12

/-- Python `str.strip()`: drop leading and trailing whitespace. -/
def pyStrip (s : String) : String :=
  String.mk (((s.data.dropWhile isSpaceChar).reverse.dropWhile isSpaceChar).reverse)

/-- Lowercase one ASCII letter (Python `str.lower()` on the alphabets the
converters compare). -/
def lowerChar (c : Char) : Char :=
  if 'A' ≤ c ∧ c ≤ 'Z' then Char.ofNat (c.toNat + 32) else c

/-- Python `str.lower()`. -/
def pyLower (s : String) : String :=
  String.mk (s.data.map lowerChar)

/-- A spreadsheet cell value: a string, a number (idealized as `ℚ`),
or missing (Python `None`). -/
inductive Cell where
  | str (s : String)
  | num (q : ℚ)
  | none
deriving DecidableEq, Repr, Inhabited

/-- Python truthiness of a cell value: `None`, the empty string and `0`
are falsy; everything else is truthy. -/
def truthy : Cell → Bool
  | Cell.none => false
  | Cell.str s => decide (s ≠ "")
  | Cell.num q => decide (q ≠ 0)

/-- Python `str()` applied to a cell value.  Strings are returned unchanged,
`None` renders as `"None"`; the numeric rendering is a simplified stand-in
(never consulted by the converter logic on the paths claims exercise, since
state columns and defaults are strings). -/
def pyStr : Cell → String
  | Cell.str s => s
  | Cell.num q => toString q.num ++ "/" ++ toString q.den
  | Cell.none => "None"

/-- One input row: an association list from (already normalized) column
names to cell values. -/
abbrev Row := List (String × Cell)

/-- One input table: a list of rows, iterated with 0-based positional index
(pandas `iterrows` over a default range index). -/
abbrev Table := List Row

/-- `row.get(k)` on a pandas/dict row: the first value bound to `k`,
`Cell.none` (Python `None`) when the column is absent. -/
def getCell (r : Row) (k : String) : Cell :=
  match List.find? (fun p => p.1 == k) r with
  | Option.some p => p.2
  | Option.none => Cell.none

/-- Python `a or b` on cell values: `a` if truthy, else `b`. -/
def orCell (a b : Cell) : Cell :=
  if truthy a then a else b

/-- An ordered fallback chain `r.get(k1) or r.get(k2) or ... or d`,
exactly as the converters write their synonym lookups. -/
def chainLookup (r : Row) : List String → Cell → Cell
  | [], d => d
  | k :: ks, d => orCell (getCell r k) (chainLookup r ks d)

/-- Column-name normalization applied by every converter before row access:
`{c: c.strip().lower() for c in df.columns}`. -/
def normRow (r : Row) : Row :=
  r.map (fun p => (pyLower (pyStrip p.1), p.2))

/-! ### Numeric coercion (`safe_float` of base.py, Python `float`) -/

/-- Decimal value of a run of digit characters. -/
def decVal (cs : List Char) : ℕ :=
  cs.foldl (fun a c => a * 10 + (c.toNat - 48)) 0

/-- Parse an unsigned decimal literal (digits, optionally a point and more
digits; at least one digit in total), as accepted by Python `float`.
Exponent and infinity forms are outside the modelled subset. -/
def parseUnsigned (cs : List Char) : Option ℚ :=
  let ip := cs.takeWhile Char.isDigit
  let rest := cs.dropWhile Char.isDigit
  match rest with
  | [] => if ip.isEmpty then Option.none else Option.some (decVal ip)
  | c :: fp =>
    if c = '.' ∧ fp.all Char.isDigit ∧ (ip ≠ [] ∨ fp ≠ []) then
      Option.some ((decVal ip : ℚ) + (decVal fp : ℚ) / (10 : ℚ) ^ fp.length)
    else Option.none

/-- Python `float(s)` on a string: optional surrounding whitespace and sign,
then a decimal literal; `Option.none` models the raised `ValueError`. -/
def pyFloatStr (s : String) : Option ℚ :=
  match (pyStrip s).data with
  | [] => Option.none
  | c :: t =>
    if c = '-' then (parseUnsigned t).map (fun q => -q)
    else if c = '+' then parseUnsigned t
    else parseUnsigned (c :: t)

/-- Python `float(x)` on a cell value: numbers convert to themselves, strings
are parsed, `None` raises (`Option.none`). -/
def pyFloat : Cell → Option ℚ
  | Cell.num q => Option.some q
  | Cell.str s => pyFloatStr s
  | Cell.none => Option.none

/-- base.py `safe_float`: convert to float if possible, otherwise return the
default. -/
def safe_float (x : Cell) (default : ℚ) : ℚ :=
  match pyFloat x with
  | Option.some q => q
  | Option.none => default

/-! ### Date normalization (`parse_date` of base.py) -/

/-- Leap-year rule of the Gregorian calendar. -/
def isLeap (y : ℕ) : Bool :=
  (y % 4 == 0 && y % 100 != 0) || y % 400 == 0

/-- Days in a month (1‥12) of year `y`. -/
def daysInMonth (y m : ℕ) : ℕ :=
  if m = 2 then (if isLeap y then 29 else 28)
  else if m = 4 ∨ m = 6 ∨ m = 9 ∨ m = 11 then 30
  else 31

/-- Numeric value of a digit character. -/
def dval (c : Char) : ℕ := c.toNat - 48

/-- Modelled from the spec: the flexible date parser delegated to the
third-party `dateutil.parser.parse` (not part of this repository).  The spec
asks only that parsing accept date-like text and fail cleanly otherwise; the
model accepts the ISO `YYYY-MM-DD` form (with calendar validation), which is
the format all documented scenarios use, and rejects everything else. -/
def parseDateStr (s : String) : Option (ℕ × ℕ × ℕ) :=
  match (pyStrip s).data with
  | [a, b, c, d, e, f, g, h2, i, j] =>
    if e = '-' ∧ h2 = '-' ∧ a.isDigit ∧ b.isDigit ∧ c.isDigit ∧ d.isDigit ∧
        f.isDigit ∧ g.isDigit ∧ i.isDigit ∧ j.isDigit then
      let y := dval a * 1000 + dval b * 100 + dval c * 10 + dval d
      let mo := dval f * 10 + dval g
      let da := dval i * 10 + dval j
      if 1 ≤ y ∧ 1 ≤ mo ∧ mo ≤ 12 ∧ 1 ≤ da ∧ da ≤ daysInMonth y mo then
        Option.some (y, mo, da)
      else Option.none
    else Option.none
  | _ => Option.none

/-- `strftime("%Y-%m-%d")`: zero-padded 4-digit year and 2-digit month/day
(datetime years are at most 9999). -/
def fmtDate (y mo da : ℕ) : String :=
  String.mk [Nat.digitChar (y / 1000 % 10), Nat.digitChar (y / 100 % 10),
    Nat.digitChar (y / 10 % 10), Nat.digitChar (y % 10), '-',
    Nat.digitChar (mo / 10 % 10), Nat.digitChar (mo % 10), '-',
    Nat.digitChar (da / 10 % 10), Nat.digitChar (da % 10)]

/-- base.py `parse_date`: try to parse any date-like value (via `str()` and
the flexible parser) into a `YYYY-MM-DD` string; on any failure return `""`. -/
def parse_date (val : Cell) : String :=
  match parseDateStr (pyStr val) with
  | Option.some t => fmtDate t.1 t.2.1 t.2.2
  | Option.none => ""

/-- Recognizer for the `YYYY-MM-DD` output shape of `parse_date` (ten
characters, digits around two dashes). -/
def isYmd (s : String) : Bool :=
  match s.data with
  | [a, b, c, d, e, f, g, h2, i, j] =>
    a.isDigit && b.isDigit && c.isDigit && d.isDigit && e == '-' &&
      f.isDigit && g.isDigit && h2 == '-' && i.isDigit && j.isDigit
  | _ => false

/-! ### Rounding and the GST split -/

/-- Round a rational to the nearest integer, ties to even (Python's
`round` on exact values). -/
def rhe (q : ℚ) : ℤ :=
  let f := ⌊q⌋
  let r := q - (f : ℚ)
  if r < 1/2 then f
  else if 1/2 < r then f + 1
  else if f % 2 = 0 then f else f + 1

/-- Python `round(x, 2)`: round to 2 decimal places, ties to even. -/
def round2 (q : ℚ) : ℚ := (rhe (q * 100) : ℚ) / 100

/-- base.py `apply_gst_split`: decide the GST breakup based on
intra-state (CGST+SGST) versus inter-state (IGST).  Both state strings are
passed through `str().strip().lower()`; the intra branch requires both to be
non-empty and equal. -/
def apply_gst_split (tax_amount : ℚ) (seller_state buyer_state : String) :
    ℚ × ℚ × ℚ :=
  let s := pyLower (pyStrip seller_state)
  let b := pyLower (pyStrip buyer_state)
  if s ≠ "" ∧ b ≠ "" ∧ s = b then
    (round2 (tax_amount / 2), round2 (tax_amount / 2), 0)
  else
    (0, 0, round2 tax_amount)

/-! ### The canonical Tally output record (`make_row` of base.py) -/

/-- One canonical Tally output row: the 26 fields of `TALLY_COLUMNS`, with
the types the converters actually store (cells for pass-through values,
rationals for computed amounts, fixed strings for constants). -/
structure TallyRow where
  voucherNo : Cell
  voucherDate : String
  customerName : Cell
  group : String
  address : Cell
  state : Cell
  gstType : String
  gstNumber : Cell
  salesLedgerName : String
  itemName : Cell
  batchNo : String
  expiry : String
  hsnCode : Cell
  quantity : ℚ
  rate : Cell
  amount : ℚ
  taxes : ℚ
  cgstLedgerName : String
  cgstAmount : ℚ
  sgstLedgerName : String
  sgstAmount : ℚ
  igstLedgerName : String
  igstAmount : ℚ
  totalAmount : ℚ
  otherChargesLedger : String
  otherChargesAmount : String
deriving DecidableEq, Repr, Inhabited

/-- base.py `make_row`: one row dictionary in the Tally schema.  The state
value doubles as the address; ledger names and group are fixed constants;
`Total Amount` is `round(amount + tax_amt, 2)`. -/
def make_row (voucher_no : Cell) (voucher_date : String) (customer : Cell)
    (state : Cell) (gst_type : String) (gst_number : Cell) (item_name : Cell)
    (hsn : Cell) (qty rate amount tax_amt cgst sgst igst : ℚ) : TallyRow :=
  { voucherNo := voucher_no
    voucherDate := voucher_date
    customerName := customer
    group := "Sundry Debtors"
    address := state
    state := state
    gstType := gst_type
    gstNumber := gst_number
    salesLedgerName := "Sales through Ecommerce"
    itemName := item_name
    batchNo := ""
    expiry := ""
    hsnCode := hsn
    quantity := qty
    rate := Cell.num rate
    amount := amount
    taxes := tax_amt
    cgstLedgerName := "Output CGST"
    cgstAmount := cgst
    sgstLedgerName := "Output SGST"
    sgstAmount := sgst
    igstLedgerName := "Output IGST"
    igstAmount := igst
    totalAmount := round2 (amount + tax_amt)
    otherChargesLedger := ""
    otherChargesAmount := "" }

/-! ### Source-specific converters -/

/-- The decimal rendering of a natural number (Python f-string `{idx+1}`),
written with explicit fuel so it is structurally recursive. -/
def natStrAux : ℕ → ℕ → List Char
  | 0, _ => []
  | fuel + 1, n =>
    if n < 10 then [Nat.digitChar n]
    else natStrAux fuel (n / 10) ++ [Nat.digitChar (n % 10)]

/-- Decimal rendering of a natural number. -/
def natStr (n : ℕ) : String := String.mk (natStrAux (n + 1) n)

/-- amazon.py `convert`, one row: resolve each semantic field through its
ordered synonym chain, coerce the numerics, split the GST and build the
Tally row. -/
def amazonRow (seller_state : String) (idx : ℕ) (r : Row) : TallyRow :=
  let voucher_no :=
    chainLookup r ["invoice-id", "order-id"] (Cell.str ("AMZ-" ++ natStr (idx + 1)))
  let voucher_date := parse_date (chainLookup r ["invoice-date"] (getCell r "order-date"))
  let buyer_state := chainLookup r ["ship-state", "shipping state"] (Cell.str "")
  let buyer_name := chainLookup r ["buyer-name"] (Cell.str "Sale through Amazon")
  let gst_number := chainLookup r ["buyer-gstin", "gstin"] (Cell.str "")
  let gst_type := if truthy gst_number then "Registered" else "Unregistered"
  let item := chainLookup r ["product-name", "item name"] (Cell.str "Item")
  let hsn := chainLookup r ["hsn"] (Cell.str "")
  let qty := safe_float (chainLookup r ["quantity"] (Cell.num 1)) 1
  let rate := safe_float (chainLookup r ["price", "unit-price"] (Cell.num 0)) 0
  let amount := safe_float (chainLookup r ["taxable-value", "amount"] (Cell.num (rate * qty))) 0
  let tax_amt :=
    safe_float (chainLookup r ["tax-amount", "gst-amount"] (Cell.num (amount * (9/50)))) 0
  let split := apply_gst_split tax_amt seller_state (pyStr buyer_state)
  make_row voucher_no voucher_date buyer_name buyer_state gst_type gst_number
    item hsn qty rate amount tax_amt split.1 split.2.1 split.2.2

/-- amazon.py `convert`: normalize column names, then build one Tally row per
input row (pandas `iterrows` with the 0-based positional index). -/
def amazonConvert (df : Table) (seller_state : String) : List TallyRow :=
  df.enum.map (fun p => amazonRow seller_state p.1 (normRow p.2))

/-- flipkart.py `convert`, one row. -/
def flipkartRow (seller_state : String) (idx : ℕ) (r : Row) : TallyRow :=
  let voucher_no :=
    chainLookup r ["invoice number", "invoice-no"] (Cell.str ("FK-" ++ natStr (idx + 1)))
  let voucher_date := parse_date (chainLookup r ["invoice date"] (getCell r "order date"))
  let buyer_state := chainLookup r ["shipping state", "ship-to-state"] (Cell.str "")
  let buyer_name :=
    chainLookup r ["customer name", "buyer name"] (Cell.str "Sale through Flipkart")
  let gst_number := chainLookup r ["buyer gstin", "gstin"] (Cell.str "")
  let gst_type := if truthy gst_number then "Registered" else "Unregistered"
  let item := chainLookup r ["item name", "product name", "sku"] (Cell.str "Item")
  let hsn := chainLookup r ["hsn", "hsn code"] (Cell.str "")
  let qty := safe_float (chainLookup r ["quantity"] (Cell.num 1)) 1
  let rate := safe_float (chainLookup r ["unit price", "price"] (Cell.num 0)) 0
  let amount := safe_float (chainLookup r ["taxable value", "amount"] (Cell.num (rate * qty))) 0
  let tax_amt :=
    safe_float (chainLookup r ["tax amount", "gst amount"] (Cell.num (amount * (9/50)))) 0
  let split := apply_gst_split tax_amt seller_state (pyStr buyer_state)
  make_row voucher_no voucher_date buyer_name buyer_state gst_type gst_number
    item hsn qty rate amount tax_amt split.1 split.2.1 split.2.2

/-- flipkart.py `convert`. -/
def flipkartConvert (df : Table) (seller_state : String) : List TallyRow :=
  df.enum.map (fun p => flipkartRow seller_state p.1 (normRow p.2))

/-- tcs.py `convert`, one row. -/
def tcsRow (seller_state : String) (idx : ℕ) (r : Row) : TallyRow :=
  let voucher_no :=
    chainLookup r ["voucher no", "invoice no", "txn id"]
      (Cell.str ("TCS-" ++ natStr (idx + 1)))
  let voucher_date := parse_date (chainLookup r ["date"] (getCell r "voucher date"))
  let buyer_state := chainLookup r ["state", "buyer state"] (Cell.str "")
  let buyer_name :=
    chainLookup r ["customer name", "party name"] (Cell.str "Sale through TCS")
  let gst_number := chainLookup r ["gstin", "buyer gstin"] (Cell.str "")
  let gst_type := if truthy gst_number then "Registered" else "Unregistered"
  let item := chainLookup r ["item", "product"] (Cell.str "Item")
  let hsn := chainLookup r ["hsn"] (Cell.str "")
  let qty := safe_float (chainLookup r ["quantity"] (Cell.num 1)) 1
  let rate := safe_float (chainLookup r ["rate", "unit price"] (Cell.num 0)) 0
  let amount := safe_float (chainLookup r ["taxable value", "amount"] (Cell.num (rate * qty))) 0
  let tax_amt :=
    safe_float (chainLookup r ["tax", "gst amount"] (Cell.num (amount * (9/50)))) 0
  let split := apply_gst_split tax_amt seller_state (pyStr buyer_state)
  make_row voucher_no voucher_date buyer_name buyer_state gst_type gst_number
    item hsn qty rate amount tax_amt split.1 split.2.1 split.2.2

/-- tcs.py `convert`. -/
def tcsConvert (df : Table) (seller_state : String) : List TallyRow :=
  df.enum.map (fun p => tcsRow seller_state p.1 (normRow p.2))

/-- base.py `generic_convert`, one row: the broader marketplace-agnostic
synonym chains. -/
def genericRow (seller_state : String) (idx : ℕ) (r : Row) : TallyRow :=
  let voucher_no :=
    chainLookup r ["invoice id", "order id"] (Cell.str ("GEN-" ++ natStr (idx + 1)))
  let voucher_date := parse_date (chainLookup r ["invoice date", "order date"] (Cell.str ""))
  let buyer_state := chainLookup r ["shipping state", "state"] (Cell.str "")
  let buyer_name :=
    chainLookup r ["buyer name", "customer name"] (Cell.str "Sale through Generic")
  let gst_number := chainLookup r ["buyer gstin", "gstin"] (Cell.str "")
  let gst_type := if truthy gst_number then "Registered" else "Unregistered"
  let item := chainLookup r ["product name", "item name"] (Cell.str "Item")
  let hsn := chainLookup r ["hsn"] (Cell.str "")
  let qty := safe_float (chainLookup r ["quantity"] (Cell.num 1)) 1
  let rate := safe_float (chainLookup r ["unit price", "price"] (Cell.num 0)) 0
  let amount := safe_float (chainLookup r ["taxable value", "amount"] (Cell.num (rate * qty))) 0
  let tax_amt :=
    safe_float (chainLookup r ["tax amount", "gst amount"] (Cell.num (amount * (9/50)))) 0
  let split := apply_gst_split tax_amt seller_state (pyStr buyer_state)
  make_row voucher_no voucher_date buyer_name buyer_state gst_type gst_number
    item hsn qty rate amount tax_amt split.1 split.2.1 split.2.2

/-- base.py `generic_convert` (used by the CLI test runner as the
`generic` parser). -/
def genericConvert (df : Table) (seller_state : String) : List TallyRow :=
  df.enum.map (fun p => genericRow seller_state p.1 (normRow p.2))

/-- Modelled from the spec: `converters/meesho.py` is imported by `app.py`
and `test_run.py` but the module itself is not in the source tree.  The spec
(§4.3) fixes the common extractor shape — normalize columns, ordered synonym
chains, numeric coercion, `split_tax`, `build_row` — but does not list
Meesho's synonym chains; minimal marketplace-agnostic chains with a
Meesho-branded placeholder are used. -/
def meeshoRow (seller_state : String) (idx : ℕ) (r : Row) : TallyRow :=
  let voucher_no :=
    chainLookup r ["invoice id", "order id"] (Cell.str ("MEE-" ++ natStr (idx + 1)))
  let voucher_date := parse_date (chainLookup r ["invoice date"] (getCell r "order date"))
  let buyer_state := chainLookup r ["shipping state", "state"] (Cell.str "")
  let buyer_name :=
    chainLookup r ["customer name", "buyer name"] (Cell.str "Sale through Meesho")
  let gst_number := chainLookup r ["buyer gstin", "gstin"] (Cell.str "")
  let gst_type := if truthy gst_number then "Registered" else "Unregistered"
  let item := chainLookup r ["product name", "item name"] (Cell.str "Item")
  let hsn := chainLookup r ["hsn"] (Cell.str "")
  let qty := safe_float (chainLookup r ["quantity"] (Cell.num 1)) 1
  let rate := safe_float (chainLookup r ["unit price", "price"] (Cell.num 0)) 0
  let amount := safe_float (chainLookup r ["taxable value", "amount"] (Cell.num (rate * qty))) 0
  let tax_amt :=
    safe_float (chainLookup r ["tax amount", "gst amount"] (Cell.num (amount * (9/50)))) 0
  let split := apply_gst_split tax_amt seller_state (pyStr buyer_state)
  make_row voucher_no voucher_date buyer_name buyer_state gst_type gst_number
    item hsn qty rate amount tax_amt split.1 split.2.1 split.2.2

/-- Modelled from the spec: the Meesho extractor, absent from the source
tree (see `meeshoRow`). -/
def meeshoConvert (df : Table) (seller_state : String) : List TallyRow :=
  df.enum.map (fun p => meeshoRow seller_state p.1 (normRow p.2))

/-- app.py `inline_generic_convert`, one row: the minimal generic converter
the dispatcher falls back to when `converters.generic` is absent (it is
absent in this tree, so this is the dispatcher's Generic branch).  It builds
the row dictionary directly rather than through `make_row`. -/
def inlineGenericRow (seller_state : String) (idx : ℕ) (r : Row) : TallyRow :=
  let voucher_no :=
    chainLookup r ["invoice id", "order id", "id"] (Cell.str ("R" ++ natStr (idx + 1)))
  let voucher_date :=
    parse_date (chainLookup r ["invoice date", "order date", "date"] (Cell.str ""))
  let buyer_state := chainLookup r ["shipping state", "state", "ship state"] (Cell.str "")
  let buyer_name :=
    chainLookup r ["buyer name", "customer name"] (Cell.str "Sale via Marketplace")
  let is_b2b :=
    truthy (chainLookup r ["buyer gstin", "gstin", "gst number"] (getCell r "gst no"))
  let gst_type := if is_b2b then "Registered" else "Unregistered"
  let gst_number := chainLookup r ["buyer gstin", "gstin", "gst number"] (Cell.str "")
  let item := chainLookup r ["product title", "item name", "product"] (Cell.str "Item")
  let hsn := chainLookup r ["hsn", "hsn code"] (Cell.str "")
  let qty :=
    match pyFloat (chainLookup r ["quantity", "qty"] (Cell.num 1)) with
    | Option.some q => q
    | Option.none => 1
  let rateOpt := pyFloat (chainLookup r ["unit price", "price", "rate"] (Cell.str ""))
  let amountCell := chainLookup r ["taxable value", "amount", "item value"] (Cell.num 0)
  let amount :=
    match pyFloat amountCell with
    | Option.some q => q
    | Option.none =>
      match rateOpt with
      | Option.some rq => qty * rq
      | Option.none => 0
  let taxCell := chainLookup r ["tax amount", "tax", "gst amount"] Cell.none
  let taxOpt :=
    if taxCell = Cell.none ∨ taxCell = Cell.str "" then Option.none
    else pyFloat taxCell
  let tax_amt :=
    match taxOpt with
    | Option.some q => if q = 0 then round2 (amount * (9/50)) else q
    | Option.none => round2 (amount * (9/50))
  let split := apply_gst_split tax_amt seller_state (pyStr buyer_state)
  { voucherNo := voucher_no
    voucherDate := voucher_date
    customerName := buyer_name
    group := "Sundry Debtors"
    address := buyer_state
    state := buyer_state
    gstType := gst_type
    gstNumber := if is_b2b then gst_number else Cell.str ""
    salesLedgerName := "Sales through Ecommerce"
    itemName := item
    batchNo := ""
    expiry := ""
    hsnCode := hsn
    quantity := qty
    rate := match rateOpt with
            | Option.some q => Cell.num q
            | Option.none => Cell.str ""
    amount := amount
    taxes := tax_amt
    cgstLedgerName := "Output CGST"
    cgstAmount := split.1
    sgstLedgerName := "Output SGST"
    sgstAmount := split.2.1
    igstLedgerName := "Output IGST"
    igstAmount := split.2.2
    totalAmount := round2 (amount + tax_amt)
    otherChargesLedger := ""
    otherChargesAmount := "" }

/-- app.py `inline_generic_convert`. -/
def inlineGenericConvert (df : Table) (seller_state : String) : List TallyRow :=
  df.enum.map (fun p => inlineGenericRow seller_state p.1 (normRow p.2))

/-! ### The dispatcher (`index` POST handler of app.py) -/

/-- Which extractor handles an input. -/
inductive Tag where
  | amazon | flipkart | meesho | tcs | generic
deriving DecidableEq, Repr

/-- Does the pattern match `hay` starting at its head? -/
def startsWithL : List Char → List Char → Bool
  | [], _ => true
  | _ :: _, [] => false
  | n :: ns, h :: hs => n == h && startsWithL ns hs

/-- Does the pattern occur anywhere in `hay` (Python `nd in hay`)? -/
def occursIn (nd : List Char) : List Char → Bool
  | [] => nd.isEmpty
  | c :: t => startsWithL nd (c :: t) || occursIn nd t

/-- Python substring test `nd in hay` on strings. -/
def strHas (hay nd : String) : Bool := occursIn nd.data hay.data

/-- app.py parser choice for one uploaded filename: lowercase the name and
test the marketplace tokens in the fixed order, generic as fallback.  The
source additionally requires `PARSERS.get(name)` to be loaded; amazon,
flipkart and tcs are in the tree, meesho is modelled as loaded (the spec and
`test_run.py` treat `converters.meesho` as present), and the generic branch
always works because `inline_generic_convert` backs it up. -/
def selectTag (filename : String) : Tag :=
  let fn := pyLower filename
  if strHas fn "amazon" then Tag.amazon
  else if strHas fn "flipkart" then Tag.flipkart
  else if strHas fn "meesho" then Tag.meesho
  else if strHas fn "tcs" then Tag.tcs
  else Tag.generic

/-- The fixed marketplace priority order stated by the spec. -/
def priorityTokens : List (String × Tag) :=
  [("amazon", Tag.amazon), ("flipkart", Tag.flipkart),
   ("meesho", Tag.meesho), ("tcs", Tag.tcs)]

/-- Stated from the spec's words (for comparison with `selectTag`): a
case-insensitive substring match against the filename over the priority
order Amazon → Flipkart → Meesho → TCS → Generic; first match wins and
Generic always matches. -/
def specSelect (filename : String) : Tag :=
  match priorityTokens.find? (fun p => strHas (pyLower filename) p.1) with
  | Option.some p => p.2
  | Option.none => Tag.generic

/-- Run the chosen extractor (the dispatcher's `parser_fn(df, seller_state)`). -/
def runTag : Tag → Table → String → List TallyRow
  | Tag.amazon, df, s => amazonConvert df s
  | Tag.flipkart, df, s => flipkartConvert df s
  | Tag.meesho, df, s => meeshoConvert df s
  | Tag.tcs, df, s => tcsConvert df s
  | Tag.generic, df, s => inlineGenericConvert df s

/-- Batch-fatal outcomes of the dispatcher. -/
inductive BatchError where
  | emptySellerState
  | noValidData
deriving DecidableEq, Repr

/-- The dispatcher logic of app.py's POST handler, over already-read tables:
strip `seller_state` and fail the whole batch if it is empty, before touching
any input; convert each non-empty-named input with the selected parser,
dropping inputs that yield no rows; fail if nothing was parsed, otherwise
concatenate in input order.  (File-extension filtering and spreadsheet
decoding are the out-of-scope I/O adapter and are not modelled.) -/
def convertAll (seller_state_raw : String) (files : List (String × Table)) :
    Except BatchError (List TallyRow) :=
  let seller_state := pyStrip seller_state_raw
  if seller_state = "" then Except.error BatchError.emptySellerState
  else
    let parsed := files.filterMap (fun f =>
      if f.1 = "" then Option.none
      else
        let out := runTag (selectTag f.1) f.2 seller_state
        if out.isEmpty then Option.none else Option.some out)
    if parsed.isEmpty then Except.error BatchError.noValidData
    else Except.ok parsed.flatten

/-- The input row of the spec's intra-state Amazon scenario. -/
def amazonScenarioRow : Row :=
  [("invoice-id", Cell.str "AB123"),
   ("invoice-date", Cell.str "2024-01-15"),
   ("ship-state", Cell.str "Maharashtra"),
   ("taxable-value", Cell.num 1000),
   ("tax-amount", Cell.num 180)]

/-- An Amazon input whose two rows carry the same invoice id (one invoice
with two line items). -/
def dupVoucherTable : Table :=
  [[("invoice-id", Cell.str "A")], [("invoice-id", Cell.str "A")]]

example : apply_gst_split 180 "Maharashtra" " maharashtra " = (90, 90, 0) := by
  rw [apply_gst_split, if_pos (by decide)]
  norm_num [round2, rhe]

example : apply_gst_split 180 "Maharashtra" "Delhi" = (0, 0, 180) := by
  rw [apply_gst_split, if_neg (by decide)]
  norm_num [round2, rhe]

example : parse_date (Cell.str "2024-01-15") = "2024-01-15" := by decide

example : parse_date Cell.none = "" := by decide

example : safe_float (Cell.str " 12.50 ") 0 = 25/2 := by
  simp +decide [safe_float, pyFloat, pyFloatStr, pyStrip, parseUnsigned, decVal,
    isSpaceChar, List.dropWhile, List.takeWhile]
  norm_num

example : safe_float (Cell.str "abc") 7 = 7 := by decide

/-! ### Helper lemmas -/

theorem rhe_close (q : ℚ) : |(rhe q : ℚ) - q| ≤ 1/2 := by
  have h1 : (⌊q⌋ : ℚ) ≤ q := Int.floor_le q
  have h2 : q < ⌊q⌋ + 1 := Int.lt_floor_add_one q
  simp only [rhe]
  split_ifs with ha hb hc
  · rw [abs_le]; constructor <;> linarith
  · rw [abs_le]; push_cast; constructor <;> linarith
  · rw [abs_le]; constructor <;> linarith
  · rw [abs_le]; push_cast; constructor <;> linarith

theorem round2_close (q : ℚ) : |round2 q - q| ≤ 1/200 := by
  have h := rhe_close (q * 100)
  simp only [round2]
  rw [abs_le] at h ⊢
  constructor <;> linarith [h.1, h.2]

/-! ### Claims -/

/-- C1 (corrected "exactly one" to "at most one"): for every tax amount and
every pair of state strings, at most one of the two groups `cgst + sgst` and
`igst` produced by `apply_gst_split` is non-zero (both are zero when the tax
rounds to zero), and `cgst + sgst + igst` equals `round(tax_amount, 2)` up to
the rounding tolerance `3/200` (the halves are rounded separately in the
intra-state branch). -/
theorem gst_split_at_most_one_and_sum (t : ℚ) (s b : String) :
    ((apply_gst_split t s b).1 + (apply_gst_split t s b).2.1 = 0 ∨
      (apply_gst_split t s b).2.2 = 0) ∧
    |(apply_gst_split t s b).1 + (apply_gst_split t s b).2.1 +
        (apply_gst_split t s b).2.2 - round2 t| ≤ 3/200 := by
  simp only [apply_gst_split]
  split_ifs with h
  · refine ⟨Or.inr rfl, ?_⟩
    show |round2 (t/2) + round2 (t/2) + 0 - round2 t| ≤ 3/200
    have h1 := round2_close (t/2)
    have h2 := round2_close t
    rw [abs_le] at h1 h2 ⊢
    constructor <;> linarith [h1.1, h1.2, h2.1, h2.2]
  · refine ⟨Or.inl (by norm_num), ?_⟩
    show |0 + 0 + round2 t - round2 t| ≤ 3/200
    norm_num

/-- C1, counterexample to the claim as stated: with `tax_amount = 0` (and
different states) the split is `(0, 0, 0)`, so NEITHER of
`{cgst + sgst, igst}` is non-zero — "exactly one non-zero" fails. -/
theorem gst_split_exactly_one_cex :
    ¬ (((apply_gst_split 0 "a" "b").1 + (apply_gst_split 0 "a" "b").2.1 ≠ 0 ∧
        (apply_gst_split 0 "a" "b").2.2 = 0) ∨
       ((apply_gst_split 0 "a" "b").1 + (apply_gst_split 0 "a" "b").2.1 = 0 ∧
        (apply_gst_split 0 "a" "b").2.2 ≠ 0)) := by
  have h : apply_gst_split 0 "a" "b" = (0, 0, 0) := by
    rw [apply_gst_split, if_neg (by decide)]
    norm_num [round2, rhe]
  rw [h]
  norm_num

/-- C2: `apply_gst_split` trims and lowercases both state strings; if both
are non-empty and equal it returns `cgst = sgst = round(tax/2, 2)` and
`igst = 0`, otherwise `cgst = sgst = 0` and `igst = round(tax, 2)`; and a
zero tax amount yields the all-zero split rather than a failure. -/
theorem apply_gst_split_spec (t : ℚ) (s b : String) :
    (pyLower (pyStrip s) ≠ "" ∧ pyLower (pyStrip b) ≠ "" ∧
        pyLower (pyStrip s) = pyLower (pyStrip b) →
      apply_gst_split t s b = (round2 (t/2), round2 (t/2), 0)) ∧
    (¬ (pyLower (pyStrip s) ≠ "" ∧ pyLower (pyStrip b) ≠ "" ∧
        pyLower (pyStrip s) = pyLower (pyStrip b)) →
      apply_gst_split t s b = (0, 0, round2 t)) ∧
    apply_gst_split 0 s b = (0, 0, 0) := by
  refine ⟨fun h => ?_, fun h => ?_, ?_⟩
  · rw [apply_gst_split, if_pos h]
  · rw [apply_gst_split, if_neg h]
  · have hz : round2 0 = 0 := by norm_num [round2, rhe]
    have hz2 : round2 (0/2) = 0 := by norm_num [round2, rhe]
    rw [apply_gst_split]
    split_ifs with h <;> simp [hz, hz2]

/-- C2, witness: a concrete intra-state pair (equal after trim + lowercase)
and a concrete inter-state pair. -/
theorem apply_gst_split_spec_witness :
    apply_gst_split 5 "A " " a" = (round2 (5/2), round2 (5/2), 0) ∧
    apply_gst_split 5 "a" "b" = (0, 0, round2 5) :=
  ⟨(apply_gst_split_spec 5 "A " " a").1 (by decide),
   (apply_gst_split_spec 5 "a" "b").2.1 (by decide)⟩

/-- C3: every record built by `make_row` (and hence every record an
extractor produces through it, shown here for the Amazon extractor) has
`Total Amount = round(amount + tax_amount, 2)`. -/
theorem total_amount_invariant :
    (∀ (vno : Cell) (vdate : String) (cust st : Cell) (gt : String)
        (gn item hsn : Cell) (qty rate amount tax c s i : ℚ),
      (make_row vno vdate cust st gt gn item hsn qty rate amount tax c s i).totalAmount =
        round2 (amount + tax)) ∧
    (∀ (df : Table) (ss : String) (r : TallyRow), r ∈ amazonConvert df ss →
      r.totalAmount = round2 (r.amount + r.taxes)) := by
  constructor
  · intro vno vdate cust st gt gn item hsn qty rate amount tax c s i
    rfl
  · intro df ss r hr
    simp only [amazonConvert, List.mem_map] at hr
    obtain ⟨p, hp, hr2⟩ := hr
    subst hr2
    rfl

/-- C3, witness: the single output row of a one-row Amazon conversion
satisfies the total invariant. -/
theorem total_amount_invariant_witness :
    (amazonRow "mh" 0 (normRow [("taxable-value", Cell.num 100)])).totalAmount =
      round2 ((amazonRow "mh" 0 (normRow [("taxable-value", Cell.num 100)])).amount +
        (amazonRow "mh" 0 (normRow [("taxable-value", Cell.num 100)])).taxes) :=
  total_amount_invariant.2 [[("taxable-value", Cell.num 100)]] "mh" _
    (List.mem_singleton_self _)

/-- C4: the dispatcher's parser choice agrees, for every filename, with the
spec's description — a case-insensitive substring match against the fixed
priority order Amazon → Flipkart → Meesho → TCS with Generic as the
always-matching fallback; in particular a filename containing "meesho"
(here with different letter case) selects the Meesho extractor. -/
theorem selectTag_matches_spec :
    (∀ fn : String, selectTag fn = specSelect fn) ∧
    selectTag "Meesho_Sales_Oct.xlsx" = Tag.meesho := by
  constructor
  · intro fn
    simp only [selectTag, specSelect, priorityTokens]
    cases h1 : strHas (pyLower fn) "amazon" <;>
      cases h2 : strHas (pyLower fn) "flipkart" <;>
        cases h3 : strHas (pyLower fn) "meesho" <;>
          cases h4 : strHas (pyLower fn) "tcs" <;>
            simp [List.find?, h1, h2, h3, h4]
  · decide

/-- C5: a blank (empty or whitespace-only) seller state fails the whole
batch with the configuration error before any input is processed — no
output is produced for any file list. -/
theorem empty_seller_state_rejected (s : String) (files : List (String × Table)) :
    pyStrip s = "" → convertAll s files = Except.error BatchError.emptySellerState := by
  intro h
  simp [convertAll, h]

/-- C5, witness: a whitespace-only seller state with an otherwise valid
Amazon input yields the configuration error and no partial output. -/
theorem empty_seller_state_rejected_witness :
    convertAll "   " [("amazon_march.csv", [[("invoice-id", Cell.str "X")]])] =
      Except.error BatchError.emptySellerState :=
  empty_seller_state_rejected "   " [("amazon_march.csv", [[("invoice-id", Cell.str "X")]])]
    (by decide)

/-- C6: the spec's intra-state Amazon scenario — converting the single row
with invoice id AB123, date 2024-01-15, ship state Maharashtra, taxable
value 1000 and tax 180 with seller state Maharashtra yields voucher AB123,
date 2024-01-15, CGST 90, SGST 90, IGST 0 and total 1180. -/
theorem amazon_intra_state_scenario :
    (amazonConvert [amazonScenarioRow] "Maharashtra").map
      (fun r => (r.voucherNo, r.voucherDate, r.cgstAmount, r.sgstAmount,
        r.igstAmount, r.totalAmount)) =
    [(Cell.str "AB123", "2024-01-15", 90, 90, 0, 1180)] := by
  have h : (amazonConvert [amazonScenarioRow] "Maharashtra").map
      (fun r => (r.voucherNo, r.voucherDate, r.cgstAmount, r.sgstAmount,
        r.igstAmount, r.totalAmount)) =
      [(Cell.str "AB123", "2024-01-15", round2 ((180 : ℚ)/2), round2 ((180 : ℚ)/2),
        0, round2 ((1000 : ℚ) + 180))] := rfl
  rw [h]
  norm_num [round2, rhe]

/-- C7: when the primary synonym column of a fallback chain is populated
(truthy), its value is the one used — shown for the Amazon voucher-number
chain (`invoice-id` before `order-id`) and the TCS voucher-number chain
(`voucher no` before `invoice no` and `txn id`), irrespective of what the
later columns hold. -/
theorem primary_synonym_wins :
    (∀ (r : Row) (idx : ℕ) (ss : String) (v : Cell),
      getCell r "invoice-id" = v → truthy v = true →
      (amazonRow ss idx r).voucherNo = v) ∧
    (∀ (r : Row) (idx : ℕ) (ss : String) (v : Cell),
      getCell r "voucher no" = v → truthy v = true →
      (tcsRow ss idx r).voucherNo = v) := by
  constructor
  · intro r idx ss v hv ht
    show orCell (getCell r "invoice-id") _ = v
    rw [hv]
    simp [orCell, ht]
  · intro r idx ss v hv ht
    show orCell (getCell r "voucher no") _ = v
    rw [hv]
    simp [orCell, ht]

/-- C7, witness: rows where both the primary and a fallback voucher column
are populated use the primary value. -/
theorem primary_synonym_wins_witness :
    truthy (Cell.str "INV1") = true ∧
    (amazonRow "mh" 0 [("invoice-id", Cell.str "INV1"),
        ("order-id", Cell.str "ORD1")]).voucherNo = Cell.str "INV1" ∧
    (tcsRow "mh" 0 [("voucher no", Cell.str "V1"),
        ("invoice no", Cell.str "V2")]).voucherNo = Cell.str "V1" :=
  ⟨rfl,
   primary_synonym_wins.1 [("invoice-id", Cell.str "INV1"),
     ("order-id", Cell.str "ORD1")] 0 "mh" (Cell.str "INV1") rfl rfl,
   primary_synonym_wins.2 [("voucher no", Cell.str "V1"),
     ("invoice no", Cell.str "V2")] 0 "mh" (Cell.str "V1") rfl rfl⟩

/-- Digit characters produced from residues are decimal digits. -/
theorem digitChar_mod_isDigit (k : ℕ) : (Nat.digitChar (k % 10)).isDigit = true := by
  have hb : ∀ r < 10, (Nat.digitChar r).isDigit = true := by decide
  exact hb (k % 10) (Nat.mod_lt _ (by norm_num))

/-- C8: `parse_date` and `safe_float` are total functions of their input
(hence pure and deterministic, and they never raise): `parse_date` always
returns either the empty string or a string of the `YYYY-MM-DD` shape, and
`safe_float` returns the numeric conversion of its input exactly when one
exists and otherwise its default, unmodified. -/
theorem parse_date_safe_float_total :
    (∀ v : Cell, parse_date v = "" ∨ isYmd (parse_date v) = true) ∧
    (∀ (x : Cell) (d q : ℚ), pyFloat x = Option.some q → safe_float x d = q) ∧
    (∀ (x : Cell) (d : ℚ), pyFloat x = Option.none → safe_float x d = d) := by
  refine ⟨fun v => ?_, fun x d q h => ?_, fun x d h => ?_⟩
  · rw [parse_date]
    cases hp : parseDateStr (pyStr v) with
    | none => exact Or.inl rfl
    | some t =>
      refine Or.inr ?_
      simp [isYmd, fmtDate, digitChar_mod_isDigit]
  · rw [safe_float, h]
  · rw [safe_float, h]

/-- C8, witness: a parseable and an unparseable date, a convertible and an
inconvertible numeric. -/
theorem parse_date_safe_float_total_witness :
    (parse_date (Cell.str "2024-01-15") = "" ∨
      isYmd (parse_date (Cell.str "2024-01-15")) = true) ∧
    safe_float (Cell.str "15") 3 = 15 ∧
    safe_float (Cell.str "not a number") 3 = 3 :=
  ⟨parse_date_safe_float_total.1 (Cell.str "2024-01-15"),
   parse_date_safe_float_total.2.1 (Cell.str "15") 3 15 rfl,
   parse_date_safe_float_total.2.2 (Cell.str "not a number") 3 rfl⟩

/-- `decVal` over an appended digit. -/
theorem decVal_append (l : List Char) (c : Char) :
    decVal (l ++ [c]) = decVal l * 10 + (c.toNat - 48) := by
  simp [decVal, List.foldl_append]

/-- Decoding a rendered digit recovers the digit. -/
theorem digitChar_decode (n : ℕ) (h : n < 10) : (Nat.digitChar n).toNat - 48 = n := by
  have hb : ∀ m < 10, (Nat.digitChar m).toNat - 48 = m := by decide
  exact hb n h

/-- `decVal` decodes the fuelled decimal rendering. -/
theorem natStrAux_decode (fuel : ℕ) :
    ∀ n : ℕ, n < 10 ^ fuel → decVal (natStrAux fuel n) = n := by
  induction fuel with
  | zero =>
    intro n h
    simp only [natStrAux, decVal, List.foldl_nil, pow_zero] at *
    omega
  | succ f ih =>
    intro n h
    rw [natStrAux]
    split_ifs with hn
    · simpa [decVal] using digitChar_decode n hn
    · have hdiv : n / 10 < 10 ^ f := by
        apply Nat.div_lt_of_lt_mul
        have h10 : (10:ℕ) ^ (f + 1) = 10 ^ f * 10 := pow_succ 10 f
        omega
      rw [decVal_append, ih (n / 10) hdiv,
        digitChar_decode (n % 10) (Nat.mod_lt _ (by norm_num))]
      omega

/-- The decimal rendering of naturals is injective. -/
theorem natStr_inj (m n : ℕ) (h : natStr m = natStr n) : m = n := by
  have hm : m < 10 ^ (m + 1) :=
    lt_of_lt_of_le (Nat.lt_pow_self (by norm_num) m)
      (Nat.pow_le_pow_right (by norm_num) (Nat.le_succ m))
  have hn : n < 10 ^ (n + 1) :=
    lt_of_lt_of_le (Nat.lt_pow_self (by norm_num) n)
      (Nat.pow_le_pow_right (by norm_num) (Nat.le_succ n))
  have hd : natStrAux (m + 1) m = natStrAux (n + 1) n := congrArg String.data h
  calc m = decVal (natStrAux (m + 1) m) := (natStrAux_decode (m + 1) m hm).symm
    _ = decVal (natStrAux (n + 1) n) := by rw [hd]
    _ = n := natStrAux_decode (n + 1) n hn

/-- Injectivity after a common string prefixing. -/
theorem append_natStr_inj (pre : String) (m n : ℕ)
    (h : pre ++ natStr m = pre ++ natStr n) : m = n := by
  apply natStr_inj
  have hd := congrArg String.data h
  rw [String.data_append, String.data_append] at hd
  exact congrArg String.mk (List.append_cancel_left hd)

/-- C9, counterexample: a run over one Amazon file whose two rows carry the
same invoice id produces two records with the same voucher number — voucher
numbers are not pairwise distinct within a run. -/
theorem voucher_unique_cex :
    (convertAll "mh" [("amazon_jan.csv", dupVoucherTable)]).map
      (fun rows => rows.map (fun r => r.voucherNo)) =
    Except.ok [Cell.str "A", Cell.str "A"] ∧
    ¬ ([Cell.str "A", Cell.str "A"] : List Cell).Nodup := by
  exact ⟨rfl, by decide⟩

/-- C9 (amended): voucher numbers are copied from the input (or
synthesized), so they repeat whenever the input repeats them; what does hold
is that the synthesized placeholders `AMZ-(index+1)` are pairwise distinct —
two Amazon rows at different indices whose voucher-number synonym columns
are all falsy receive different voucher numbers. -/
theorem synthesized_voucher_distinct (r1 r2 : Row) (i j : ℕ) (ss1 ss2 : String)
    (hne : i ≠ j)
    (h1a : truthy (getCell r1 "invoice-id") = false)
    (h1b : truthy (getCell r1 "order-id") = false)
    (h2a : truthy (getCell r2 "invoice-id") = false)
    (h2b : truthy (getCell r2 "order-id") = false) :
    (amazonRow ss1 i r1).voucherNo ≠ (amazonRow ss2 j r2).voucherNo := by
  have hv1 : (amazonRow ss1 i r1).voucherNo =
      Cell.str ("AMZ-" ++ natStr (i + 1)) := by
    show chainLookup r1 ["invoice-id", "order-id"] _ = _
    simp [chainLookup, orCell, h1a, h1b]
  have hv2 : (amazonRow ss2 j r2).voucherNo =
      Cell.str ("AMZ-" ++ natStr (j + 1)) := by
    show chainLookup r2 ["invoice-id", "order-id"] _ = _
    simp [chainLookup, orCell, h2a, h2b]
  rw [hv1, hv2]
  intro hEq
  have hs : "AMZ-" ++ natStr (i + 1) = "AMZ-" ++ natStr (j + 1) := by
    injection hEq
  have hij : i + 1 = j + 1 := append_natStr_inj "AMZ-" (i + 1) (j + 1) hs
  exact hne (by omega)

/-- C9 (amended), witness: rows 0 and 1 with no voucher columns get the
distinct placeholders AMZ-1 and AMZ-2. -/
theorem synthesized_voucher_distinct_witness :
    (amazonRow "mh" 0 []).voucherNo ≠ (amazonRow "mh" 1 []).voucherNo :=
  synthesized_voucher_distinct [] [] 0 1 "mh" "mh" (by decide) rfl rfl rfl rfl

/-- C10: a present-but-falsy column (empty string or 0) is treated exactly
as an absent one throughout the fallback chains: the general chain steps
past any falsy head, a 0 quantity falls back to the default 1, a 0 tax
column (with no other tax synonym) makes the tax default to 18% of the
amount, and an empty-string primary voucher column falls through to the
synthesized placeholder — shown for the chain combinator itself and for the
Amazon and base-generic extractors. -/
theorem falsy_treated_as_absent :
    (∀ (r : Row) (k : String) (ks : List String) (d : Cell),
      truthy (getCell r k) = false →
      chainLookup r (k :: ks) d = chainLookup r ks d) ∧
    (∀ (r : Row) (ss : String) (idx : ℕ),
      getCell r "quantity" = Cell.num 0 → (amazonRow ss idx r).quantity = 1) ∧
    (∀ (r : Row) (ss : String) (idx : ℕ),
      getCell r "tax-amount" = Cell.num 0 → getCell r "gst-amount" = Cell.none →
      (amazonRow ss idx r).taxes = (amazonRow ss idx r).amount * (9/50)) ∧
    (∀ (r : Row) (ss : String) (idx : ℕ),
      getCell r "invoice-id" = Cell.str "" → getCell r "order-id" = Cell.none →
      (amazonRow ss idx r).voucherNo = Cell.str ("AMZ-" ++ natStr (idx + 1))) ∧
    (∀ (r : Row) (ss : String) (idx : ℕ),
      getCell r "quantity" = Cell.num 0 → (genericRow ss idx r).quantity = 1) ∧
    (∀ (r : Row) (ss : String) (idx : ℕ),
      getCell r "tax amount" = Cell.num 0 → getCell r "gst amount" = Cell.none →
      (genericRow ss idx r).taxes = (genericRow ss idx r).amount * (9/50)) := by
  refine ⟨fun r k ks d h => ?_, fun r ss idx h => ?_, fun r ss idx h1 h2 => ?_,
    fun r ss idx h1 h2 => ?_, fun r ss idx h => ?_, fun r ss idx h1 h2 => ?_⟩
  · simp [chainLookup, orCell, h]
  · have hq : (amazonRow ss idx r).quantity =
        safe_float (chainLookup r ["quantity"] (Cell.num 1)) 1 := rfl
    rw [hq]
    simp only [chainLookup]
    rw [h]
    rfl
  · have ht : (amazonRow ss idx r).taxes =
        safe_float (chainLookup r ["tax-amount", "gst-amount"]
          (Cell.num ((amazonRow ss idx r).amount * (9/50)))) 0 := rfl
    rw [ht]
    simp only [chainLookup]
    rw [h1, h2]
    rfl
  · have hv : (amazonRow ss idx r).voucherNo =
        chainLookup r ["invoice-id", "order-id"]
          (Cell.str ("AMZ-" ++ natStr (idx + 1))) := rfl
    rw [hv]
    simp only [chainLookup]
    rw [h1, h2]
    rfl
  · have hq : (genericRow ss idx r).quantity =
        safe_float (chainLookup r ["quantity"] (Cell.num 1)) 1 := rfl
    rw [hq]
    simp only [chainLookup]
    rw [h]
    rfl
  · have ht : (genericRow ss idx r).taxes =
        safe_float (chainLookup r ["tax amount", "gst amount"]
          (Cell.num ((genericRow ss idx r).amount * (9/50)))) 0 := rfl
    rw [ht]
    simp only [chainLookup]
    rw [h1, h2]
    rfl

/-- C10, witness: concrete rows with a zero quantity cell, a zero tax cell
and an empty-string invoice id behave as if those columns were absent. -/
theorem falsy_treated_as_absent_witness :
    chainLookup [("quantity", Cell.num 0)] ["quantity"] (Cell.num 1) =
      chainLookup [("quantity", Cell.num 0)] [] (Cell.num 1) ∧
    (amazonRow "mh" 0 [("quantity", Cell.num 0)]).quantity = 1 ∧
    (amazonRow "mh" 0 [("tax-amount", Cell.num 0),
        ("taxable-value", Cell.num 200)]).taxes =
      (amazonRow "mh" 0 [("tax-amount", Cell.num 0),
        ("taxable-value", Cell.num 200)]).amount * (9/50) ∧
    (amazonRow "mh" 2 [("invoice-id", Cell.str "")]).voucherNo =
      Cell.str ("AMZ-" ++ natStr 3) ∧
    (genericRow "mh" 0 [("quantity", Cell.num 0)]).quantity = 1 ∧
    (genericRow "mh" 0 [("tax amount", Cell.num 0)]).taxes =
      (genericRow "mh" 0 [("tax amount", Cell.num 0)]).amount * (9/50) :=
  ⟨falsy_treated_as_absent.1 [("quantity", Cell.num 0)] "quantity" [] (Cell.num 1) rfl,
   falsy_treated_as_absent.2.1 [("quantity", Cell.num 0)] "mh" 0 rfl,
   falsy_treated_as_absent.2.2.1 [("tax-amount", Cell.num 0),
     ("taxable-value", Cell.num 200)] "mh" 0 rfl rfl,
   falsy_treated_as_absent.2.2.2.1 [("invoice-id", Cell.str "")] "mh" 2 rfl rfl,
   falsy_treated_as_absent.2.2.2.2.1 [("quantity", Cell.num 0)] "mh" 0 rfl,
   falsy_treated_as_absent.2.2.2.2.2 [("tax amount", Cell.num 0)] "mh" 0 rfl rfl⟩
